import Mathlib

/-!
Verification development for the deltaDNA API client wrapper
(`deltaDNAConnect.py`).

The single class `deltaDNA` is embedded shallowly: every method becomes a
pure Lean function parametrised over the data the remote endpoints would
return (an HTTP response is a status code plus a body already parsed from
JSON; bodies whose schema the client relies on are typed records, bodies
the code treats as open dictionaries are association lists).  Pandas
semantics used by the source are modelled exactly where they matter:

* a `DataFrame` built from a JSON list carries the positional range index
  `0, 1, 2, …`; boolean-mask filtering keeps the original labels, and
  `series[0]` on an integer-labelled series is a *label* lookup that
  raises `KeyError` when label `0` survived the filter nowhere;
* `Series.item()` raises `ValueError` unless the series has exactly one
  element;
* `pd.concat` raises when given an empty list of frames.

Python exceptions are surfaced as `Except PyErr`; a `None` return is
`Option.none`.  Remote POSTs issued by a method are collected in a list of
`RemoteCall`s so that "the operation did (not) reach the remote mutation"
is a provable statement.
-/

set_option autoImplicit false

namespace DeltaDNA

/-- The Python exceptions the client can raise (uncaught). -/
inductive PyErr where
  | keyError
  | typeError
  | valueError
  | indexError
  | concatError
deriving Repr, DecidableEq

/-- The fragment of JSON values the embedding needs for bodies the source
treats as open `dict`s (`json.loads` results it mutates and returns). -/
inductive JVal where
  | null
  | bool (b : Bool)
  | int (n : Int)
  | str (s : String)
deriving Repr, DecidableEq

/-- A parsed JSON object: keys in insertion order, as a Python `dict`. -/
abbrev JObj := List (String × JVal)

/-- `d.get(k)`: `none` when the key is absent. -/
def jGet (o : JObj) (k : String) : Option JVal :=
  (o.find? (fun kv => kv.1 == k)).map (fun kv => kv.2)

/-- `d[k] = v` / `d.update({k: v})`: replace in place when the key exists,
append otherwise (Python dicts preserve insertion order). -/
def jUpdate (o : JObj) (k : String) (v : JVal) : JObj :=
  if o.any (fun kv => kv.1 == k) then
    o.map (fun kv => if kv.1 == k then (k, v) else kv)
  else o ++ [(k, v)]

/-- `Optional[bool]` function arguments serialised into the JSON body. -/
def jOptBool : Option Bool → JVal
  | none => JVal.null
  | some b => JVal.bool b

/-- A remote mutation issued by a method: the POST url and its JSON body. -/
inductive RemoteCall where
  | post (url : String) (body : JObj)
deriving Repr, DecidableEq

/-! ### pandas primitives -/

/-- The positional range index a `DataFrame` built from a JSON list gets. -/
def enumFromN {α : Type} (n : Nat) : List α → List (Nat × α)
  | [] => []
  | r :: t => (n, r) :: enumFromN (n + 1) t

/-- Boolean-mask filtering `df[mask]`: rows keep their original labels. -/
def filterIndexed {α : Type} (rows : List α) (p : α → Bool) : List (Nat × α) :=
  (enumFromN 0 rows).filter (fun ir => p ir.2)

/-- `series[lbl]` on an integer-labelled series: label lookup, `none` is
`KeyError`. -/
def seriesGet {α : Type} (rows : List (Nat × α)) (lbl : Nat) : Option α :=
  (rows.find? (fun ir => ir.1 == lbl)).map (fun ir => ir.2)

/-- `Series.item()`: the sole element, `ValueError` otherwise. -/
def seriesItem {α : Type} : List α → Except PyErr α
  | [x] => Except.ok x
  | _ => Except.error PyErr.valueError

/-- `Series.max()` over an integer column (`none` on an empty column). -/
def pdMax : List Int → Option Int
  | [] => none
  | x :: t => some (t.foldl max x)

/-- `pd.concat(frames)`: raises when the list of frames is empty. -/
def pdConcat {α : Type} (l : List (List α)) : Except PyErr (List α) :=
  match l with
  | [] => Except.error PyErr.concatError
  | _ => Except.ok l.flatten

/-! ### Data model (records per the remote API schema) -/

/-- A row of the cached environment directory `self._game_list`, after
`game_list` added the derived `Application ID` column. -/
structure EnvRow where
  gameName : String
  environmentID : Int
  environmentName : String
  applicationID : Int
deriving Repr, DecidableEq

/-- The cached directory; row `i` carries positional label `i`. -/
abbrev GameList := List EnvRow

/-- A raw environment record as the environments endpoint returns it,
before the `Application ID` column is derived. -/
structure RawEnv where
  gameName : String
  environmentID : Int
  environmentName : String
deriving Repr, DecidableEq

/-- An event parameter as embedded in an event record (the fields
`paramField ++ metricsField` read via `.get`; `format`, `required` and the
metric flags may be absent). -/
structure Param where
  name : String
  id : Int
  type : Option String
  format : Option String
  required : Option Bool
  calculatingMetricFirst : Option Bool
  calculatingMetricLast : Option Bool
  calculatingMetricCount : Option Bool
  calculatingMetricMin : Option Bool
  calculatingMetricMax : Option Bool
  calculatingMetricSum : Option Bool
deriving Repr, DecidableEq

/-- An event record from the events endpoint. -/
structure Event where
  id : Int
  name : String
  environment : Int
  parameters : List Param
deriving Repr, DecidableEq

/-- A parameter record from the event-parameters endpoint. -/
structure RParam where
  id : Int
  name : String
  type : Option String
  description : Option String
  application : Int
  calculatingMetricFirst : Option Bool
  calculatingMetricLast : Option Bool
  calculatingMetricCount : Option Bool
  calculatingMetricMin : Option Bool
  calculatingMetricMax : Option Bool
  calculatingMetricSum : Option Bool
deriving Repr, DecidableEq

/-! ### `game_list` -/

/-- `games['Environment Name'].replace({'Dev': 1, 'Live': 2})`: mapped
names become integers, unmapped names stay strings. -/
def envReplace (name : String) : Int ⊕ String :=
  if name = "Dev" then Sum.inl 1
  else if name = "Live" then Sum.inl 2
  else Sum.inr name

/-- The elementwise subtraction `Environment ID - env_infer`; an integer
minus a leftover string raises `TypeError`. -/
def subInfer (envID : Int) : Int ⊕ String → Except PyErr Int
  | Sum.inl k => Except.ok (envID - k)
  | Sum.inr _ => Except.error PyErr.typeError

/-- The elementwise derivation of the `Application ID` column
(`games['Environment ID'].values - env_infer`): the vectorised
subtraction is all-or-nothing, the first `TypeError` aborts it. -/
def inferRows : List RawEnv → Except PyErr (List EnvRow)
  | [] => Except.ok []
  | r :: t =>
      match subInfer r.environmentID (envReplace r.environmentName) with
      | Except.error e => Except.error e
      | Except.ok a =>
          match inferRows t with
          | Except.error e => Except.error e
          | Except.ok rest =>
              Except.ok (EnvRow.mk r.gameName r.environmentID
                r.environmentName a :: rest)

/-- `game_list`: fetch the environments, derive the `Application ID`
column.  Non-200 prints a diagnostic and returns `None`. -/
def game_list (status : Nat) (raw : List RawEnv) :
    Except PyErr (Option GameList) :=
  if status ≠ 200 then Except.ok none
  else
    match inferRows raw with
    | Except.error e => Except.error e
    | Except.ok rows => Except.ok (some rows)

/-! ### `_event_spec` and the event read operations -/

/-- `_event_spec`: GET all events, guard the status, guard membership of
`env_id` in the cached directory, print via two `[0]` label lookups on the
mask-filtered directory (`KeyError` when the matching row is not row 0),
then filter the events to the environment. -/
def eventSpec (gl : GameList) (envId : Int) (status : Nat)
    (events : List Event) : Except PyErr (Option (List Event)) :=
  if status ≠ 200 then Except.ok none
  else if gl.any (fun r => r.environmentID == envId) then
    match seriesGet (filterIndexed gl (fun r => r.environmentID == envId)) 0 with
    | none => Except.error PyErr.keyError
    | some _ =>
        Except.ok (some (events.filter (fun e => e.environment == envId)))
  else Except.ok none

/-- `event_list`: `(name, id)` pairs of the environment's events. -/
def event_list (gl : GameList) (envId : Int) (status : Nat)
    (events : List Event) : Except PyErr (Option (List (String × Int))) :=
  match eventSpec gl envId status events with
  | Except.error e => Except.error e
  | Except.ok none => Except.ok none
  | Except.ok (some es) =>
      Except.ok (some (es.map (fun e => (e.name, e.id))))

/-- A row of the table `event_details` builds: the columns
`Environment ID, eventName` followed by `paramField ++ metricsField`
(after the rename `name → Event Name`, `id → parameterID`). -/
structure DetailRow where
  environmentID : Int
  eventName : String
  paramName : Option String
  parameterID : Int
  type : Option String
  format : Option String
  required : Option Bool
  calculatingMetricFirst : Option Bool
  calculatingMetricLast : Option Bool
  calculatingMetricCount : Option Bool
  calculatingMetricMin : Option Bool
  calculatingMetricMax : Option Bool
  calculatingMetricSum : Option Bool
deriving Repr, DecidableEq

/-- The per-event frame of `event_details`: one row per parameter of the
event (`[.get(j) for j in paramField + metricsField]`). -/
def detailRows (envId : Int) (e : Event) : List DetailRow :=
  e.parameters.map (fun p =>
    { environmentID := envId
      eventName := e.name
      paramName := some p.name
      parameterID := p.id
      type := p.type
      format := p.format
      required := p.required
      calculatingMetricFirst := p.calculatingMetricFirst
      calculatingMetricLast := p.calculatingMetricLast
      calculatingMetricCount := p.calculatingMetricCount
      calculatingMetricMin := p.calculatingMetricMin
      calculatingMetricMax := p.calculatingMetricMax
      calculatingMetricSum := p.calculatingMetricSum })

/-- `event_details`: one frame per event of the environment, concatenated
with `pd.concat` (which raises when the environment has no events). -/
def event_details (gl : GameList) (envId : Int) (status : Nat)
    (events : List Event) : Except PyErr (Option (List DetailRow)) :=
  match eventSpec gl envId status events with
  | Except.error e => Except.error e
  | Except.ok none => Except.ok none
  | Except.ok (some es) =>
      match pdConcat (es.map (detailRows envId)) with
      | Except.error e => Except.error e
      | Except.ok rows => Except.ok (some rows)

/-! ### `_parameter_spec` and the parameter read operations -/

/-- `_get_applicationID`: the `[0]` label lookup on the mask-filtered
directory; `KeyError` when the matching row is not row 0. -/
def getApplicationID (gl : GameList) (envId : Int) : Except PyErr Int :=
  match seriesGet (filterIndexed gl (fun r => r.environmentID == envId)) 0 with
  | none => Except.error PyErr.keyError
  | some r => Except.ok r.applicationID

/-- `_parameter_spec`: GET all parameters under the API key, guard the
status, guard directory membership, then filter client-side to the
application owning `env_id`. -/
def parameterSpec (gl : GameList) (envId : Int) (status : Nat)
    (rparams : List RParam) : Except PyErr (Option (List RParam)) :=
  if status ≠ 200 then Except.ok none
  else if gl.any (fun r => r.environmentID == envId) then
    match getApplicationID gl envId with
    | Except.error e => Except.error e
    | Except.ok appId =>
        Except.ok (some (rparams.filter (fun p => p.application == appId)))
  else Except.ok none

/-- A row of the `parameter_list` table: `ApplicationID` inserted in
front of `['id','name','type','description'] ++ metricsField` (with the
rename `id → ParameterID`). -/
structure PLRow where
  applicationID : Int
  parameterID : Int
  name : String
  type : Option String
  description : Option String
  calculatingMetricFirst : Option Bool
  calculatingMetricLast : Option Bool
  calculatingMetricCount : Option Bool
  calculatingMetricMin : Option Bool
  calculatingMetricMax : Option Bool
  calculatingMetricSum : Option Bool
deriving Repr, DecidableEq

/-- The row `parameter_list` builds for one parameter record. -/
def plRowOf (appId : Int) (p : RParam) : PLRow :=
  { applicationID := appId
    parameterID := p.id
    name := p.name
    type := p.type
    description := p.description
    calculatingMetricFirst := p.calculatingMetricFirst
    calculatingMetricLast := p.calculatingMetricLast
    calculatingMetricCount := p.calculatingMetricCount
    calculatingMetricMin := p.calculatingMetricMin
    calculatingMetricMax := p.calculatingMetricMax
    calculatingMetricSum := p.calculatingMetricSum }

/-- `parameter_list`: one single-row frame per parameter of the
application, concatenated with `pd.concat` (which raises when the
application has no parameters), then the `ApplicationID` column is
inserted via a second `_get_applicationID` call. -/
def parameter_list (gl : GameList) (envId : Int) (status : Nat)
    (rparams : List RParam) : Except PyErr (Option (List PLRow)) :=
  match parameterSpec gl envId status rparams with
  | Except.error e => Except.error e
  | Except.ok none => Except.ok none
  | Except.ok (some ps) =>
      match pdConcat (ps.map (fun p => [p])) with
      | Except.error e => Except.error e
      | Except.ok ps' =>
          match getApplicationID gl envId with
          | Except.error e => Except.error e
          | Except.ok appId => Except.ok (some (ps'.map (plRowOf appId)))

/-- A row of the `parameter_search` table: `Environemnt ID` (sic)
inserted in front of
`['application','id','name','description','type'] ++ metricsField`. -/
structure SearchRow where
  environmentID : Int
  gameID : Int
  parameterID : Int
  parameterName : String
  description : Option String
  type : Option String
  calculatingMetricFirst : Option Bool
  calculatingMetricLast : Option Bool
  calculatingMetricCount : Option Bool
  calculatingMetricMin : Option Bool
  calculatingMetricMax : Option Bool
  calculatingMetricSum : Option Bool
deriving Repr, DecidableEq

/-- The row `parameter_search` builds for one matching parameter. -/
def searchRowOf (envId : Int) (p : RParam) : SearchRow :=
  { environmentID := envId
    gameID := p.application
    parameterID := p.id
    parameterName := p.name
    description := p.description
    type := p.type
    calculatingMetricFirst := p.calculatingMetricFirst
    calculatingMetricLast := p.calculatingMetricLast
    calculatingMetricCount := p.calculatingMetricCount
    calculatingMetricMin := p.calculatingMetricMin
    calculatingMetricMax := p.calculatingMetricMax
    calculatingMetricSum := p.calculatingMetricSum }

/-- `parameter_search`: the application's parameters whose `name` equals
`param_name`, one row each (a `pd.DataFrame` of a possibly empty list —
no `pd.concat`, so an empty result is a 0-row table, not an error). -/
def parameter_search (gl : GameList) (envId : Int) (status : Nat)
    (rparams : List RParam) (param_name : String) :
    Except PyErr (Option (List SearchRow)) :=
  match parameterSpec gl envId status rparams with
  | Except.error e => Except.error e
  | Except.ok none => Except.ok none
  | Except.ok (some ps) =>
      Except.ok (some ((ps.filter (fun p => p.name == param_name)).map
        (searchRowOf envId)))

/-! ### `add_event` -/

/-- The events endpoint url. -/
def eventsUrl : String := "https://api.deltadna.net/api/events/v1/events"

/-- The event-parameters endpoint url. -/
def eventParamsUrl : String :=
  "https://api.deltadna.net/api/events/v1/event-parameters"

/-- The JSON body `add_event` POSTs. -/
def addEventBody (event_name description : String) (envId : Int) : JObj :=
  [("name", JVal.str event_name),
   ("description", JVal.str description),
   ("environment", JVal.int envId)]

/-- `add_event`: POSTs the new event unconditionally (no directory
check), then returns the parsed response body with its `parameters` entry
overwritten by a placeholder string in *both* branches (`'None'` on a
non-200 response, `'Not showing here.'` on 200). -/
def add_event (envId : Int) (event_name description : String)
    (status : Nat) (respBody : JObj) : List RemoteCall × JObj :=
  let body := addEventBody event_name description envId
  let calls := [RemoteCall.post eventsUrl body]
  if status ≠ 200 then
    (calls, jUpdate respBody "parameters" (JVal.str "None"))
  else
    (calls, jUpdate respBody "parameters" (JVal.str "Not showing here."))

/-! ### `add_parameter` -/

/-- The candidate id computed (and then never used) by `add_parameter`:
`self.event_details(env_id)['parameterID'].max() + 1`.  When
`event_details` returns `None`, subscripting `None` raises `TypeError`. -/
def add_parameter_param_id (gl : GameList) (envId : Int) (status : Nat)
    (events : List Event) : Except PyErr (Option Int) :=
  match event_details gl envId status events with
  | Except.error e => Except.error e
  | Except.ok none => Except.error PyErr.typeError
  | Except.ok (some rows) =>
      Except.ok ((pdMax (rows.map (fun r => r.parameterID))).map (fun m => m + 1))

/-- The JSON body `add_parameter` POSTs: note the hard-coded literal
`"id": 1020234` in the source. -/
def add_parameter_body (param_name param_desc : String) (appId : Int)
    (param_type param_format : String)
    (cmFirst cmLast cmCount cmMin cmMax cmSum : Option Bool) : JObj :=
  [("id", JVal.int 1020234),
   ("name", JVal.str param_name),
   ("description", JVal.str param_desc),
   ("application", JVal.int appId),
   ("type", JVal.str param_type),
   ("format", JVal.str param_format),
   ("calculatingMetricFirst", jOptBool cmFirst),
   ("calculatingMetricLast", jOptBool cmLast),
   ("calculatingMetricCount", jOptBool cmCount),
   ("calculatingMetricMin", jOptBool cmMin),
   ("calculatingMetricMax", jOptBool cmMax),
   ("calculatingMetricSum", jOptBool cmSum)]

/-- `add_parameter`: computes the candidate id (for nothing), resolves
the application id and game name with `.item()` on the mask-filtered
directory, POSTs the body, and returns the *submitted* body with an
`isCreated` flag appended (`False` on non-200, `True` on 200); the
response itself is only printed. -/
def add_parameter (gl : GameList) (envId : Int)
    (param_name param_desc param_type param_format : String)
    (cmFirst cmLast cmCount cmMin cmMax cmSum : Option Bool)
    (evStatus : Nat) (events : List Event) (postStatus : Nat) :
    List RemoteCall × Except PyErr JObj :=
  match add_parameter_param_id gl envId evStatus events with
  | Except.error e => ([], Except.error e)
  | Except.ok _param_id =>
      match seriesItem ((gl.filter (fun r => r.environmentID == envId)).map
          (fun r => r.applicationID)) with
      | Except.error e => ([], Except.error e)
      | Except.ok app_id =>
          match seriesItem ((gl.filter (fun r => r.environmentID == envId)).map
              (fun r => r.gameName)) with
          | Except.error e => ([], Except.error e)
          | Except.ok _app_name =>
              let body := add_parameter_body param_name param_desc app_id
                param_type param_format cmFirst cmLast cmCount cmMin cmMax cmSum
              let calls := [RemoteCall.post eventParamsUrl body]
              if postStatus ≠ 200 then
                (calls, Except.ok (jUpdate body "isCreated" (JVal.bool false)))
              else
                (calls, Except.ok (jUpdate body "isCreated" (JVal.bool true)))

/-! ### `_param_to_event` and its wrappers -/

/-- What `_param_to_event` hands back to its callers on the happy paths:
the remote error `title` string on a non-200 POST, the linked parameter
record tagged with `'From Event'` after an add, the
`{name, 'From Event'}` pair after a remove. -/
inductive LinkOutcome where
  | title (t : String)
  | added (p : Param) (fromEvent : String)
  | removed (param_name fromEvent : String)
deriving Repr, DecidableEq

/-- `body[add_remove]` for `body = {'add': {"required": required},
'remove': {}}`; any other key raises `KeyError`. -/
def linkBody (required : Bool) (add_remove : String) : Option JObj :=
  if add_remove = "add" then some [("required", JVal.bool required)]
  else if add_remove = "remove" then some []
  else none

/-- The link url `events/{event_id}/{add_remove}/{param_id}`. -/
def linkUrl (event_id : Int) (add_remove : String) (param_id : Int) : String :=
  eventsUrl ++ "/" ++ toString event_id ++ "/" ++ add_remove ++ "/"
    ++ toString param_id

/-- `_param_to_event`: resolves the event name through `event_list` and
the parameter name through `parameter_search` (iterating over a `None`
return raises `TypeError`), returns `None` when the event matches ≠ 1
pairs or the parameter matches 0 rows, extracts `event_id[0][1]` and
`param_id.item()` (the latter raising `ValueError` on > 1 rows), POSTs
the link request, and shapes the response.  `errTitle` is the `title`
field of a non-200 response; `postParams` the `parameters` list of the
event body a 200 add-response carries. -/
def param_to_event (gl : GameList) (envId : Int)
    (param_name event_name add_remove : String) (required : Bool)
    (evStatus : Nat) (events : List Event)
    (pStatus : Nat) (rparams : List RParam)
    (postStatus : Nat) (errTitle : String) (postParams : List Param) :
    List RemoteCall × Except PyErr (Option LinkOutcome) :=
  match event_list gl envId evStatus events with
  | Except.error e => ([], Except.error e)
  | Except.ok none => ([], Except.error PyErr.typeError)
  | Except.ok (some pairs) =>
      let event_id := pairs.filter (fun i => i.1 == event_name)
      match parameter_search gl envId pStatus rparams param_name with
      | Except.error e => ([], Except.error e)
      | Except.ok none => ([], Except.error PyErr.typeError)
      | Except.ok (some srows) =>
          let param_ids := srows.map (fun r => r.parameterID)
          if event_id.length ≠ 1 then ([], Except.ok none)
          else if param_ids.length < 1 then ([], Except.ok none)
          else
            match event_id.head? with
            | none => ([], Except.error PyErr.indexError)
            | some e0 =>
                match seriesItem param_ids with
                | Except.error e => ([], Except.error e)
                | Except.ok pid =>
                    match linkBody required add_remove with
                    | none => ([], Except.error PyErr.keyError)
                    | some reqBody =>
                        let calls :=
                          [RemoteCall.post (linkUrl e0.2 add_remove pid) reqBody]
                        if postStatus ≠ 200 then
                          (calls, Except.ok (some (LinkOutcome.title errTitle)))
                        else if add_remove = "add" then
                          match (postParams.filter
                              (fun i => i.name == param_name)).head? with
                          | none => (calls, Except.error PyErr.indexError)
                          | some p =>
                              (calls, Except.ok (some
                                (LinkOutcome.added p event_name)))
                        else
                          (calls, Except.ok (some
                            (LinkOutcome.removed param_name event_name)))

/-- `add_param_to_event`: `_param_to_event` with `add_remove = 'add'`. -/
def add_param_to_event (gl : GameList) (envId : Int)
    (param_name event_name : String) (required : Bool)
    (evStatus : Nat) (events : List Event)
    (pStatus : Nat) (rparams : List RParam)
    (postStatus : Nat) (errTitle : String) (postParams : List Param) :
    List RemoteCall × Except PyErr (Option LinkOutcome) :=
  param_to_event gl envId param_name event_name "add" required
    evStatus events pStatus rparams postStatus errTitle postParams

/-- `remove_param_from_event`: `_param_to_event` with
`add_remove = 'remove'` and `required = False`. -/
def remove_param_from_event (gl : GameList) (envId : Int)
    (param_name event_name : String)
    (evStatus : Nat) (events : List Event)
    (pStatus : Nat) (rparams : List RParam)
    (postStatus : Nat) (errTitle : String) (postParams : List Param) :
    List RemoteCall × Except PyErr (Option LinkOutcome) :=
  param_to_event gl envId param_name event_name "remove" false
    evStatus events pStatus rparams postStatus errTitle postParams

/-! ### Helper lemmas about the pandas primitives -/

/-- Labels in `enumFromN n` are all ≥ `n`, so label `0` is never found
past the head of the frame. -/
theorem find0_enum_filter_none {α : Type} (p : α → Bool) (t : List α) :
    ∀ n : Nat, 0 < n →
      (((enumFromN n t).filter (fun ir => p ir.2)).find?
        (fun ir => ir.1 == 0)) = none := by
  induction t with
  | nil => intro n _; rfl
  | cons r t ih =>
      intro n hn
      have hne : (n == 0) = false :=
        beq_eq_false_iff_ne.mpr (Nat.pos_iff_ne_zero.mp hn)
      cases hpr : p r with
      | false =>
          simp only [enumFromN, List.filter_cons, hpr, if_neg,
            Bool.false_eq_true, not_false_iff]
          exact ih (n + 1) (Nat.succ_pos n)
      | true =>
          simp only [enumFromN, List.filter_cons, hpr, if_pos, List.find?_cons,
            hne]
          exact ih (n + 1) (Nat.succ_pos n)

/-- `series[0]` on the mask-filtered frame succeeds with the head row
when the head row satisfies the mask. -/
theorem seriesGet_cons_pos {α : Type} (p : α → Bool) (g : α) (t : List α)
    (hg : p g = true) : seriesGet (filterIndexed (g :: t) p) 0 = some g := by
  simp [seriesGet, filterIndexed, enumFromN, List.filter_cons, hg,
    List.find?_cons]

/-- `series[0]` on the mask-filtered frame raises `KeyError` when the
head row fails the mask, wherever else the mask holds. -/
theorem seriesGet_cons_neg {α : Type} (p : α → Bool) (g : α) (t : List α)
    (hg : p g = false) : seriesGet (filterIndexed (g :: t) p) 0 = none := by
  simp only [seriesGet, filterIndexed, enumFromN, List.filter_cons, hg,
    Bool.false_eq_true, if_neg, not_false_iff]
  rw [find0_enum_filter_none p t 1 Nat.one_pos]
  rfl

/-! ### C4 — Application ID derivation in `game_list` -/

/-- Every row `inferRows` produces carries the subtraction result of its
own raw record. -/
theorem inferRows_mem (raw : List RawEnv) (rows : List EnvRow)
    (h : inferRows raw = Except.ok rows) :
    ∀ row ∈ rows,
      subInfer row.environmentID (envReplace row.environmentName) =
        Except.ok row.applicationID := by
  induction raw generalizing rows with
  | nil =>
      simp only [inferRows] at h
      cases h
      simp
  | cons r t ih =>
      simp only [inferRows] at h
      cases hs : subInfer r.environmentID (envReplace r.environmentName) with
      | error e => rw [hs] at h; cases h
      | ok a =>
          rw [hs] at h
          cases ht : inferRows t with
          | error e => rw [ht] at h; cases h
          | ok rest =>
              rw [ht] at h
              cases h
              intro row hrow
              rcases List.mem_cons.mp hrow with hEq | hMem
              · subst hEq
                simpa using hs
              · exact ih rest ht row hMem

/-- **C4** (confirmed).  For every environment record produced by
`game_list`, the derived Application ID column satisfies
`ApplicationID = EnvironmentID - 1` when the Environment Name is `"Dev"`
and `ApplicationID = EnvironmentID - 2` when it is `"Live"`. -/
theorem C4_game_list_application_id (status : Nat) (raw : List RawEnv)
    (rows : GameList) (row : EnvRow)
    (hgl : game_list status raw = Except.ok (some rows)) (hrow : row ∈ rows) :
    (row.environmentName = "Dev" → row.applicationID = row.environmentID - 1) ∧
    (row.environmentName = "Live" → row.applicationID = row.environmentID - 2)
    := by
  have hinf : inferRows raw = Except.ok rows := by
    by_cases hst : status = 200
    · simp only [game_list, hst, ne_eq, not_true_eq_false, if_false] at hgl
      cases hir : inferRows raw with
      | error e => rw [hir] at hgl; cases hgl
      | ok rows' =>
          rw [hir] at hgl
          cases hgl
          rfl
    · simp [game_list, hst] at hgl
  have hsub := inferRows_mem raw rows hinf row hrow
  constructor
  · intro hdev
    rw [hdev] at hsub
    simp only [envReplace, if_pos, subInfer, Except.ok.injEq] at hsub
    omega
  · intro hlive
    rw [hlive] at hsub
    simp only [envReplace, subInfer, Except.ok.injEq,
      String.reduceEq, if_false, if_pos] at hsub
    omega

/-- Witness for C4 at the spec's own example: directory entry
`{Game Name: "Foo", Environment ID: 101, Environment Name: "Dev"}` gives
Application ID `100`. -/
theorem C4_witness :
    (EnvRow.mk "Foo" 101 "Dev" 100).applicationID =
      (EnvRow.mk "Foo" 101 "Dev" 100).environmentID - 1 :=
  (C4_game_list_application_id 200 [RawEnv.mk "Foo" 101 "Dev"]
    [EnvRow.mk "Foo" 101 "Dev" 100] (EnvRow.mk "Foo" 101 "Dev" 100)
    rfl (by decide)).1 rfl

/-! ### C3 — label-based `[0]` lookup on the filtered directory -/

/-- **C3** (confirmed).  For every environment id present in the cached
directory whose matching row is not at positional index 0, the `[0]`
label lookups in `_event_spec`'s success branch and in
`_get_applicationID` find no label `0`, so `event_list`, `event_details`,
`parameter_list` and `parameter_search` all raise an uncaught `KeyError`
instead of returning data. -/
theorem C3_valid_env_not_first_raises_keyerror (g : EnvRow) (t : List EnvRow)
    (envId : Int) (events : List Event) (rparams : List RParam)
    (param_name : String)
    (hg : (g.environmentID == envId) = false)
    (hmem : ((g :: t).any (fun r => r.environmentID == envId)) = true) :
    event_list (g :: t) envId 200 events = Except.error PyErr.keyError ∧
    event_details (g :: t) envId 200 events = Except.error PyErr.keyError ∧
    parameter_list (g :: t) envId 200 rparams = Except.error PyErr.keyError ∧
    parameter_search (g :: t) envId 200 rparams param_name =
      Except.error PyErr.keyError := by
  have hget := seriesGet_cons_neg (fun r => r.environmentID == envId) g t hg
  have hspec : eventSpec (g :: t) envId 200 events =
      Except.error PyErr.keyError := by
    simp [eventSpec, hmem, hget]
  have happ : getApplicationID (g :: t) envId = Except.error PyErr.keyError := by
    simp [getApplicationID, hget]
  have hpspec : parameterSpec (g :: t) envId 200 rparams =
      Except.error PyErr.keyError := by
    simp [parameterSpec, hmem, happ]
  refine ⟨?_, ?_, ?_, ?_⟩
  · simp [event_list, hspec]
  · simp [event_details, hspec]
  · simp [parameter_list, hpspec]
  · simp [parameter_search, hpspec]

/-- Witness for C3: a two-row directory whose second row is environment
`101`; all four read operations raise `KeyError` for `101`. -/
theorem C3_witness :
    event_list [EnvRow.mk "A" 100 "Dev" 99, EnvRow.mk "B" 101 "Dev" 100]
        101 200 [] = Except.error PyErr.keyError ∧
    event_details [EnvRow.mk "A" 100 "Dev" 99, EnvRow.mk "B" 101 "Dev" 100]
        101 200 [] = Except.error PyErr.keyError ∧
    parameter_list [EnvRow.mk "A" 100 "Dev" 99, EnvRow.mk "B" 101 "Dev" 100]
        101 200 [] = Except.error PyErr.keyError ∧
    parameter_search [EnvRow.mk "A" 100 "Dev" 99, EnvRow.mk "B" 101 "Dev" 100]
        101 200 [] "p" = Except.error PyErr.keyError :=
  C3_valid_env_not_first_raises_keyerror (EnvRow.mk "A" 100 "Dev" 99)
    [EnvRow.mk "B" 101 "Dev" 100] 101 [] [] "p" (by decide) (by decide)

/-! ### C9 — `event_list` for an environment in the directory -/

/-- Counterexample to **C9** as stated: environment `101` *is* in the
cached directory and the remote returned 200, yet `event_list` raises
`KeyError` (the matching directory row is row 1, see C3) instead of
returning the `(name, id)` pairs of `101`'s events. -/
theorem C9_counterexample :
    (([EnvRow.mk "A" 100 "Dev" 99, EnvRow.mk "B" 101 "Dev" 100]).any
      (fun r => r.environmentID == 101)) = true ∧
    event_list [EnvRow.mk "A" 100 "Dev" 99, EnvRow.mk "B" 101 "Dev" 100]
        101 200 [Event.mk 7 "ev" 101 []] = Except.error PyErr.keyError ∧
    (Except.error PyErr.keyError :
        Except PyErr (Option (List (String × Int)))) ≠
      Except.ok (some [("ev", (7 : Int))]) :=
  ⟨by decide, rfl, by simp⟩

/-- **C9** (corrected).  For every environment id whose directory row is
the *first* row of the cached directory, and every 200 events response,
`event_list` returns exactly the `(name, id)` pairs of the events whose
`environment` field equals the id, in remote response order. -/
theorem C9_event_list_exact (g : EnvRow) (t : List EnvRow) (envId : Int)
    (events : List Event) (hg : (g.environmentID == envId) = true) :
    event_list (g :: t) envId 200 events =
      Except.ok (some ((events.filter (fun e => e.environment == envId)).map
        (fun e => (e.name, e.id)))) := by
  have hget := seriesGet_cons_pos (fun r => r.environmentID == envId) g t hg
  simp [event_list, eventSpec, hg, hget]

/-- Witness for C9 at the spec's own example: `listEvents(101)` keeps the
two events of environment `101`, in order, and drops the event of `102`.
-/
theorem C9_witness :
    event_list [EnvRow.mk "G" 101 "Dev" 100] 101 200
        [Event.mk 7 "ev" 101 [], Event.mk 9 "other" 102 [],
         Event.mk 8 "ev2" 101 []] =
      Except.ok (some [("ev", (7 : Int)), ("ev2", (8 : Int))]) :=
  C9_event_list_exact (EnvRow.mk "G" 101 "Dev" 100) [] 101
    [Event.mk 7 "ev" 101 [], Event.mk 9 "other" 102 [],
     Event.mk 8 "ev2" 101 []] (by decide)

/-! ### C10 — empty filtered result sets and `pd.concat` -/

/-- **C10** (confirmed).  With a 200 response and the environment id in
the cached directory (its row first, so the C3 lookup succeeds), an empty
filtered result set makes `event_details` (no events in the environment)
and `parameter_list` (no parameters in the application) raise the
uncaught exception of `pd.concat([])` instead of returning an empty table
or `None`. -/
theorem C10_empty_filter_concat_raises (g : EnvRow) (t : List EnvRow)
    (envId : Int) (events : List Event) (rparams : List RParam)
    (hg : (g.environmentID == envId) = true)
    (hev : events.filter (fun e => e.environment == envId) = [])
    (hpar : rparams.filter (fun p => p.application == g.applicationID) = []) :
    event_details (g :: t) envId 200 events = Except.error PyErr.concatError ∧
    parameter_list (g :: t) envId 200 rparams = Except.error PyErr.concatError
    := by
  have hget := seriesGet_cons_pos (fun r => r.environmentID == envId) g t hg
  constructor
  · simp [event_details, eventSpec, hg, hget, hev, pdConcat]
  · simp [parameter_list, parameterSpec, getApplicationID, hg, hget, hpar,
      pdConcat]

/-- Witness for C10: environment `101` (directory row 0, application
`100`) with no events of its own and no parameters of its application. -/
theorem C10_witness :
    event_details [EnvRow.mk "G" 101 "Dev" 100] 101 200
        [Event.mk 7 "ev" 102 []] = Except.error PyErr.concatError ∧
    parameter_list [EnvRow.mk "G" 101 "Dev" 100] 101 200
        [RParam.mk 1 "p" none none 99 none none none none none none] =
      Except.error PyErr.concatError :=
  C10_empty_filter_concat_raises (EnvRow.mk "G" 101 "Dev" 100) [] 101
    [Event.mk 7 "ev" 102 []]
    [RParam.mk 1 "p" none none 99 none none none none none none]
    (by decide) (by decide) (by decide)

/-! ### C2 — behaviour on environment ids missing from the directory -/

/-- Counterexample to **C2** as stated: for environment `999`, absent
from the one-row directory, `add_parameter` raises an uncaught
`TypeError` (subscripting the `None` that `event_details` returned) and
`add_event` issues its remote POST unconditionally — neither returns a
null result. -/
theorem C2_counterexample :
    (([EnvRow.mk "G" 101 "Dev" 100]).any
      (fun r => r.environmentID == 999)) = false ∧
    add_parameter [EnvRow.mk "G" 101 "Dev" 100] 999 "p" "d" "STRING" "string"
        none none none none none none 200 [] 200 =
      ([], Except.error PyErr.typeError) ∧
    (add_event 999 "e" "d" 200 []).1 =
      [RemoteCall.post eventsUrl (addEventBody "e" "d" 999)] :=
  ⟨by decide, rfl, rfl⟩

/-- **C2** (corrected).  For every environment id not in the cached
directory: the four read operations do return `None` with a diagnostic;
but `add_parameter`, `add_param_to_event` and `remove_param_from_event`
raise an uncaught `TypeError`, and `add_event` POSTs the mutation to the
remote unconditionally. -/
theorem C2_unknown_env_behaviour (gl : GameList) (envId : Int)
    (evStatus pStatus postStatus : Nat) (events : List Event)
    (rparams : List RParam)
    (param_name event_name description : String) (required : Bool)
    (errTitle : String) (postParams : List Param)
    (pn pdsc pt pf : String) (c1 c2 c3 c4 c5 c6 : Option Bool)
    (respBody : JObj)
    (hmem : (gl.any (fun r => r.environmentID == envId)) = false) :
    event_list gl envId evStatus events = Except.ok none ∧
    event_details gl envId evStatus events = Except.ok none ∧
    parameter_list gl envId pStatus rparams = Except.ok none ∧
    parameter_search gl envId pStatus rparams param_name = Except.ok none ∧
    add_parameter gl envId pn pdsc pt pf c1 c2 c3 c4 c5 c6 evStatus events
        postStatus = ([], Except.error PyErr.typeError) ∧
    add_param_to_event gl envId param_name event_name required evStatus events
        pStatus rparams postStatus errTitle postParams =
      ([], Except.error PyErr.typeError) ∧
    remove_param_from_event gl envId param_name event_name evStatus events
        pStatus rparams postStatus errTitle postParams =
      ([], Except.error PyErr.typeError) ∧
    (add_event envId event_name description postStatus respBody).1 =
      [RemoteCall.post eventsUrl (addEventBody event_name description envId)]
    := by
  have hspec : eventSpec gl envId evStatus events = Except.ok none := by
    by_cases h : evStatus = 200 <;> simp [eventSpec, h, hmem]
  have hpspec : parameterSpec gl envId pStatus rparams = Except.ok none := by
    by_cases h : pStatus = 200 <;> simp [parameterSpec, h, hmem]
  have hel : event_list gl envId evStatus events = Except.ok none := by
    simp [event_list, hspec]
  have hed : event_details gl envId evStatus events = Except.ok none := by
    simp [event_details, hspec]
  refine ⟨hel, hed, ?_, ?_, ?_, ?_, ?_, ?_⟩
  · simp [parameter_list, hpspec]
  · simp [parameter_search, hpspec]
  · simp [add_parameter, add_parameter_param_id, hed]
  · simp [add_param_to_event, param_to_event, hel]
  · simp [remove_param_from_event, param_to_event, hel]
  · by_cases h : postStatus = 200 <;> simp [add_event, h]

/-- Witness for C2 (amended): environment `999` against a one-row
directory for environment `101`. -/
theorem C2_witness :
    event_list [EnvRow.mk "G" 101 "Dev" 100] 999 200 [] = Except.ok none ∧
    event_details [EnvRow.mk "G" 101 "Dev" 100] 999 200 [] =
      Except.ok none ∧
    parameter_list [EnvRow.mk "G" 101 "Dev" 100] 999 200 [] =
      Except.ok none ∧
    parameter_search [EnvRow.mk "G" 101 "Dev" 100] 999 200 [] "p" =
      Except.ok none ∧
    add_parameter [EnvRow.mk "G" 101 "Dev" 100] 999 "p" "d" "STRING"
        "string" none none none none none none 200 [] 200 =
      ([], Except.error PyErr.typeError) ∧
    add_param_to_event [EnvRow.mk "G" 101 "Dev" 100] 999 "p" "ev" false
        200 [] 200 [] 200 "t" [] = ([], Except.error PyErr.typeError) ∧
    remove_param_from_event [EnvRow.mk "G" 101 "Dev" 100] 999 "p" "ev"
        200 [] 200 [] 200 "t" [] = ([], Except.error PyErr.typeError) ∧
    (add_event 999 "ev" "d" 200 []).1 =
      [RemoteCall.post eventsUrl (addEventBody "ev" "d" 999)] :=
  C2_unknown_env_behaviour [EnvRow.mk "G" 101 "Dev" 100] 999 200 200 200
    [] [] "p" "ev" "d" false "t" [] "p" "d" "STRING" "string"
    none none none none none none [] (by decide)

/-! ### C6 — name resolution in `_param_to_event` -/

/-- `.item()` raises `ValueError` on a series of two or more elements. -/
theorem seriesItem_of_two_le {α : Type} (l : List α) (h : 2 ≤ l.length) :
    seriesItem l = Except.error PyErr.valueError := by
  match l with
  | [] => simp at h
  | [x] => simp at h
  | x :: y :: t => rfl

/-- Counterexample to **C6** as stated: the parameter name `"p"` matches
*two* parameters of the application, yet `add_param_to_event` does not
return a null result — `param_id.item()` raises an uncaught `ValueError`
(the code only guards `shape[0] < 1`). -/
theorem C6_counterexample :
    add_param_to_event [EnvRow.mk "G" 101 "Dev" 100] 101 "p" "ev" false
        200 [Event.mk 7 "ev" 101 []] 200
        [RParam.mk 1 "p" none none 100 none none none none none none,
         RParam.mk 2 "p" none none 100 none none none none none none]
        200 "t" [] = ([], Except.error PyErr.valueError) ∧
    (Except.error PyErr.valueError :
        Except PyErr (Option LinkOutcome)) ≠ Except.ok none :=
  ⟨rfl, by simp⟩

/-- **C6** (corrected).  Given resolved `event_list` / `parameter_search`
results: a zero or multiple match on the *event* name returns `None`
without POSTing, a zero match on the *parameter* name returns `None`
without POSTing, but two or more matches on the parameter name raise an
uncaught `ValueError` from `.item()` instead of returning `None`. -/
theorem C6_name_resolution (gl : GameList) (envId : Int)
    (param_name event_name add_remove : String) (required : Bool)
    (evStatus : Nat) (events : List Event)
    (pStatus : Nat) (rparams : List RParam)
    (postStatus : Nat) (errTitle : String) (postParams : List Param)
    (pairs : List (String × Int)) (srows : List SearchRow)
    (hev : event_list gl envId evStatus events = Except.ok (some pairs))
    (hps : parameter_search gl envId pStatus rparams param_name =
      Except.ok (some srows)) :
    ((pairs.filter (fun i => i.1 == event_name)).length ≠ 1 →
      param_to_event gl envId param_name event_name add_remove required
        evStatus events pStatus rparams postStatus errTitle postParams =
          ([], Except.ok none)) ∧
    ((pairs.filter (fun i => i.1 == event_name)).length = 1 →
      srows.length = 0 →
      param_to_event gl envId param_name event_name add_remove required
        evStatus events pStatus rparams postStatus errTitle postParams =
          ([], Except.ok none)) ∧
    ((pairs.filter (fun i => i.1 == event_name)).length = 1 →
      2 ≤ srows.length →
      param_to_event gl envId param_name event_name add_remove required
        evStatus events pStatus rparams postStatus errTitle postParams =
          ([], Except.error PyErr.valueError)) := by
  refine ⟨?_, ?_, ?_⟩
  · intro hlen
    simp [param_to_event, hev, hps, hlen]
  · intro hlen hz
    simp [param_to_event, hev, hps, hlen, List.length_eq_zero.mp hz]
  · intro hlen htwo
    obtain ⟨e0, he0⟩ := List.length_eq_one.mp hlen
    have hitem := seriesItem_of_two_le (srows.map (fun r => r.parameterID))
      (by simpa using htwo)
    have hnz : ¬ ((srows.map (fun r => r.parameterID)).length < 1) := by
      simp only [List.length_map]
      omega
    have hne : srows ≠ [] := by
      intro hnil
      rw [hnil] at htwo
      simp at htwo
    simp [param_to_event, hev, hps, hlen, he0, hnz, hitem, hne]

/-- Witness for C6 (amended): the event name matches no event, so the
link operation returns `None` before any POST. -/
theorem C6_witness :
    param_to_event [EnvRow.mk "G" 101 "Dev" 100] 101 "p" "missing" "add"
        false 200 [Event.mk 7 "ev" 101 []] 200
        [RParam.mk 1 "p" none none 100 none none none none none none]
        200 "t" [] = ([], Except.ok none) :=
  (C6_name_resolution [EnvRow.mk "G" 101 "Dev" 100] 101 "p" "missing"
      "add" false 200 [Event.mk 7 "ev" 101 []] 200
      [RParam.mk 1 "p" none none 100 none none none none none none]
      200 "t" [] [("ev", 7)]
      [SearchRow.mk 101 100 1 "p" none none none none none none none none]
      rfl rfl).1 (by decide)

/-! ### C8 — row count of `parameter_search` -/

/-- Counterexample to **C8** as stated: a remote parameter list holding
two parameters named `"p"` in the application makes `parameter_search`
return a two-row table, not 0 or 1 rows. -/
theorem C8_counterexample :
    parameter_search [EnvRow.mk "G" 101 "Dev" 100] 101 200
        [RParam.mk 1 "p" none none 100 none none none none none none,
         RParam.mk 2 "p" none none 100 none none none none none none]
        "p" =
      Except.ok (some
        [SearchRow.mk 101 100 1 "p" none none none none none none none none,
         SearchRow.mk 101 100 2 "p" none none none none none none none none])
    ∧
    ¬ ([SearchRow.mk 101 100 1 "p" none none none none none none none none,
        SearchRow.mk 101 100 2 "p" none none none none none none none
          none].length ≤ 1) :=
  ⟨rfl, by decide⟩

/-- **C8** (corrected).  `parameter_search` returns one row per
application parameter whose name equals the argument, in remote response
order; the table has at most one row exactly when the application holds
at most one parameter of that name (the code does not enforce the 0-or-1
bound itself). -/
theorem C8_parameter_search_rows (g : EnvRow) (t : List EnvRow)
    (envId : Int) (rparams : List RParam) (param_name : String)
    (hg : (g.environmentID == envId) = true) :
    parameter_search (g :: t) envId 200 rparams param_name =
      Except.ok (some
        (((rparams.filter (fun p => p.application == g.applicationID)).filter
          (fun p => p.name == param_name)).map (searchRowOf envId))) ∧
    (((rparams.filter (fun p => p.application == g.applicationID)).filter
        (fun p => p.name == param_name)).length ≤ 1 →
      ((((rparams.filter (fun p => p.application == g.applicationID)).filter
        (fun p => p.name == param_name)).map (searchRowOf envId)).length ≤ 1))
    := by
  have hget := seriesGet_cons_pos (fun r => r.environmentID == envId) g t hg
  constructor
  · simp [parameter_search, parameterSpec, getApplicationID, hg, hget]
  · intro h
    simpa [List.length_map] using h

/-- Witness for C8 (amended): a unique parameter name gives the one-row
table. -/
theorem C8_witness :
    parameter_search [EnvRow.mk "G" 101 "Dev" 100] 101 200
        [RParam.mk 1 "p" none none 100 none none none none none none,
         RParam.mk 2 "q" none none 100 none none none none none none]
        "p" =
      Except.ok (some
        [SearchRow.mk 101 100 1 "p" none none none none none none none
          none]) :=
  (C8_parameter_search_rows (EnvRow.mk "G" 101 "Dev" 100) [] 101
    [RParam.mk 1 "p" none none 100 none none none none none none,
     RParam.mk 2 "q" none none 100 none none none none none none]
    "p" (by decide)).1

/-! ### C7 — the record `add_event` returns -/

/-- Counterexample to **C7** as stated: on a 200 response `add_event`
does *not* return the created event body as the remote supplied it — the
`parameters` entry is overwritten with the placeholder
`'Not showing here.'`. -/
theorem C7_counterexample :
    add_event 101 "e" "d" 200
        [("name", JVal.str "e"), ("parameters", JVal.str "supplied")] =
      ([RemoteCall.post eventsUrl (addEventBody "e" "d" 101)],
        [("name", JVal.str "e"),
         ("parameters", JVal.str "Not showing here.")]) ∧
    ([("name", JVal.str "e"),
      ("parameters", JVal.str "Not showing here.")] : JObj) ≠
      [("name", JVal.str "e"), ("parameters", JVal.str "supplied")] :=
  ⟨rfl, by decide⟩

/-- **C7** (corrected).  `add_event` POSTs the new event; on a non-200
response it returns the remote error body with its `parameters` entry set
to the placeholder `'None'`; on a 200 response it returns the created
event body with its `parameters` entry likewise *replaced* by the
placeholder `'Not showing here.'`, not as the remote supplied it. -/
theorem C7_add_event_result (envId : Int) (event_name description : String)
    (status : Nat) (respBody : JObj) :
    (status ≠ 200 → add_event envId event_name description status respBody =
      ([RemoteCall.post eventsUrl (addEventBody event_name description envId)],
        jUpdate respBody "parameters" (JVal.str "None"))) ∧
    (status = 200 → add_event envId event_name description status respBody =
      ([RemoteCall.post eventsUrl (addEventBody event_name description envId)],
        jUpdate respBody "parameters" (JVal.str "Not showing here."))) := by
  constructor <;> intro h <;> simp [add_event, h]

/-- Witness for C7 (amended), failure branch: the error body comes back
with the `parameters` placeholder appended. -/
theorem C7_witness :
    add_event 55 "x" "y" 404 [("title", JVal.str "err")] =
      ([RemoteCall.post eventsUrl (addEventBody "x" "y" 55)],
        [("title", JVal.str "err"), ("parameters", JVal.str "None")]) :=
  (C7_add_event_result 55 "x" "y" 404 [("title", JVal.str "err")]).1
    (by decide)

/-! ### C5 — the record `add_parameter` returns -/

/-- Updating a `dict` at a key it does not hold appends the pair. -/
theorem jUpdate_fresh (o : JObj) (k : String)
    (h : (o.any (fun kv => kv.1 == k)) = false) (v : JVal) :
    jUpdate o k v = o ++ [(k, v)] := by
  simp [jUpdate, h]

/-- The body `add_parameter` submits holds no `isCreated` key. -/
theorem add_parameter_body_no_isCreated (pn pdsc : String) (appId : Int)
    (pt pf : String) (c1 c2 c3 c4 c5 c6 : Option Bool) :
    ((add_parameter_body pn pdsc appId pt pf c1 c2 c3 c4 c5 c6).any
      (fun kv => kv.1 == "isCreated")) = false := by
  simp [add_parameter_body]

/-- **C5** (confirmed).  Whenever `add_parameter` reaches its POST, the
record it returns is exactly the submitted body plus an `isCreated`
field: `true` on a remote 200 response, `false` otherwise; all other
fields are the submitted body's fields unchanged. -/
theorem C5_add_parameter_result (gl : GameList) (envId : Int)
    (pn pdsc pt pf : String) (c1 c2 c3 c4 c5 c6 : Option Bool)
    (evStatus : Nat) (events : List Event) (postStatus : Nat) (g : EnvRow)
    (rows : List DetailRow)
    (hdet : event_details gl envId evStatus events = Except.ok (some rows))
    (hfil : gl.filter (fun r => r.environmentID == envId) = [g]) :
    add_parameter gl envId pn pdsc pt pf c1 c2 c3 c4 c5 c6 evStatus events
        postStatus =
      ([RemoteCall.post eventParamsUrl
          (add_parameter_body pn pdsc g.applicationID pt pf c1 c2 c3 c4 c5
            c6)],
        Except.ok
          (add_parameter_body pn pdsc g.applicationID pt pf c1 c2 c3 c4 c5
            c6 ++ [("isCreated", JVal.bool (postStatus == 200))])) := by
  have hid : add_parameter_param_id gl envId evStatus events =
      Except.ok ((pdMax (rows.map (fun r => r.parameterID))).map
        (fun m => m + 1)) := by
    simp [add_parameter_param_id, hdet]
  have happ : ((gl.filter (fun r => r.environmentID == envId)).map
      (fun r => r.applicationID)) = [g.applicationID] := by rw [hfil]; rfl
  have hname : ((gl.filter (fun r => r.environmentID == envId)).map
      (fun r => r.gameName)) = [g.gameName] := by rw [hfil]; rfl
  have hupd := jUpdate_fresh
    (add_parameter_body pn pdsc g.applicationID pt pf c1 c2 c3 c4 c5 c6)
    "isCreated"
    (add_parameter_body_no_isCreated pn pdsc g.applicationID pt pf c1 c2 c3
      c4 c5 c6)
  by_cases h : postStatus = 200
  · subst h
    simp [add_parameter, hid, happ, hname, seriesItem, hupd]
  · have hbe : (postStatus == 200) = false := beq_eq_false_iff_ne.mpr h
    simp [add_parameter, hid, happ, hname, seriesItem, h, hbe, hupd]

/-- Witness for C5: a concrete session where the POST is reached and the
remote answers 404; the submitted body comes back with
`isCreated: false` appended. -/
theorem C5_witness :
    add_parameter [EnvRow.mk "G" 101 "Dev" 100] 101 "np" "d" "STRING"
        "string" none none none none none none 200
        [Event.mk 7 "ev" 101
          [Param.mk "q" 3 none none none none none none none none none]]
        404 =
      ([RemoteCall.post eventParamsUrl
          (add_parameter_body "np" "d" 100 "STRING" "string" none none none
            none none none)],
        Except.ok
          (add_parameter_body "np" "d" 100 "STRING" "string" none none none
            none none none ++ [("isCreated", JVal.bool false)])) :=
  C5_add_parameter_result [EnvRow.mk "G" 101 "Dev" 100] 101 "np" "d"
    "STRING" "string" none none none none none none 200
    [Event.mk 7 "ev" 101
      [Param.mk "q" 3 none none none none none none none none none]]
    404 (EnvRow.mk "G" 101 "Dev" 100)
    [DetailRow.mk 101 "ev" (some "q") 3 none none none none none none none
      none none]
    rfl rfl

/-! ### C1 — the parameter id actually submitted -/

/-- **C1** (code bug).  The candidate id
`event_details(env_id)['parameterID'].max() + 1` evaluates to `6` for an
environment whose event parameters carry ids `3` and `5`, yet the body
`add_parameter` POSTs carries the hard-coded `id: 1020234`: the computed
candidate is never the id submitted to the remote API. -/
theorem C1_submitted_id_is_hardcoded :
    add_parameter_param_id [EnvRow.mk "G" 101 "Dev" 100] 101 200
        [Event.mk 7 "ev" 101
          [Param.mk "a" 3 none none none none none none none none none,
           Param.mk "b" 5 none none none none none none none none none]] =
      Except.ok (some 6) ∧
    (add_parameter [EnvRow.mk "G" 101 "Dev" 100] 101 "np" "d" "STRING"
        "string" none none none none none none 200
        [Event.mk 7 "ev" 101
          [Param.mk "a" 3 none none none none none none none none none,
           Param.mk "b" 5 none none none none none none none none none]]
        200).1 =
      [RemoteCall.post eventParamsUrl
        (add_parameter_body "np" "d" 100 "STRING" "string" none none none
          none none none)] ∧
    jGet (add_parameter_body "np" "d" 100 "STRING" "string" none none none
        none none none) "id" = some (JVal.int 1020234) ∧
    (1020234 : Int) ≠ 6 :=
  ⟨rfl, rfl, rfl, by decide⟩
